import Mathlib

/-!
A verification development for the floppy-disk subsystem of the VirtualC64
emulator.  The definitions below are shallow embeddings of the C++ source:

* the GCR codec tables (`Disk::gcr`, `Disk::invgcr`, `Disk::bin2gcr`,
  `Disk::gcr2bin`, `Disk::isGcr`);
* the bit-stream disk (`Disk::_readBitFromHalftrack`,
  `Disk::_writeBitToHalftrack`, `Disk::clearDisk`);
* the drive controller (`Drive::executeUF4`, `Drive::updateByteReady`,
  `Drive::raiseByteReady`, `Drive::execute`, `Drive::moveHeadUp`,
  `Drive::moveHeadDown`, `Drive::insertDisk`, `Drive::ejectDisk`,
  `Drive::vsyncHandler`);
* the T64 archive repair pass (`T64File::repair`,
  `T64File::directoryItemIsPresent`, `T64File::collectionCount`,
  `T64File::memStart`, `T64File::memEnd`).

Machine integers are modelled as `Nat` (with an explicit `% 2 ^ w` where the
source width is observable) and the signed deadline counters as `Int`.
Calls into external collaborator chips (the drive CPU and the two VIA chips)
are modelled as environment inputs; the edge-triggered `via2.CA1action`
output is modelled as an emitted event list.
-/

namespace VC64

/-! ## GCR codec (`Disk::gcr` / `Disk::invgcr`, part_005 lines 66-87, 212-216) -/

/-- GCR encoding table.  Maps 4 data bits to 5 GCR bits
(`Disk::gcr`, part_005 lines 66-72). -/
def gcrTable : List Nat :=
  [0x0a, 0x0b, 0x12, 0x13,
   0x0e, 0x0f, 0x16, 0x17,
   0x09, 0x19, 0x1a, 0x1b,
   0x0d, 0x1d, 0x1e, 0x15]

/-- Inverse GCR encoding table.  Maps 5 GCR bits to 4 data bits; invalid
patterns are marked with 255 (`Disk::invgcr`, part_005 lines 77-87). -/
def invgcrTable : List Nat :=
  [255, 255, 255, 255,
   255, 255, 255, 255,
   255,   8,   0,   1,
   255,  12,   4,   5,
   255, 255,   2,   3,
   255,  15,   6,   7,
   255,   9,  10,  11,
   255,  13,  14, 255]

/-- Embeds `Disk::bin2gcr` (part_005 line 212): table lookup of a 4-bit value. -/
def bin2gcr (value : Nat) : Nat := gcrTable.getD value 0

/-- Embeds `Disk::gcr2bin` (part_005 line 213): inverse table lookup of a 5-bit value. -/
def gcr2bin (value : Nat) : Nat := invgcrTable.getD value 0

/-- Embeds `Disk::isGcr` (part_005 line 216): a 5-bit codeword is valid iff the
inverse table does not hold the sentinel 0xFF there. -/
def isGcr (value : Nat) : Bool := decide (invgcrTable.getD value 0 ≠ 0xFF)

/-! ## The bit-stream disk -/

/-- The disk state owned by a drive.  `data` is the per-halftrack byte array
(bit-packed, MSB first) and `length` the per-halftrack length in bits
(`DiskData` / `DiskLength` in part_005 lines 112-115); `writeProtected` and
`modified` are the two flags of part_005 lines 97-102.  Array bounds are not
reflected in the type; all claims quantify over in-range indices. -/
structure Disk where
  data : Nat → Nat → Nat
  length : Nat → Nat
  writeProtected : Bool
  modified : Bool

/-- Embeds `Disk::_readBitFromHalftrack` (part_005 lines 260-263):
`(data.halftrack[ht][pos / 8] & (0x80 >> (pos % 8))) != 0`. -/
def Disk.readBitFromHalftrack (d : Disk) (ht pos : Nat) : Bool :=
  decide (d.data ht (pos / 8) &&& (0x80 >>> (pos % 8)) ≠ 0)

/-- Embeds `Disk::_writeBitToHalftrack` (part_005 lines 267-274): sets or clears one
bit inside the packed byte `data.halftrack[ht][pos / 8]` with the source's
masks `0x0080 >> (pos % 8)` and `0xFF7F >> (pos % 8)`. -/
def Disk.writeBitToHalftrack (d : Disk) (ht pos : Nat) (bit : Bool) : Disk :=
  { d with data := fun h i =>
      if h = ht ∧ i = pos / 8 then
        if bit then d.data ht (pos / 8) ||| (0x0080 >>> (pos % 8))
        else d.data ht (pos / 8) &&& (0xFF7F >>> (pos % 8))
      else d.data h i }

/-- Embeds `Disk::setModified` (part_005 line 202; the body only stores the flag,
message posting is host notification outside this core). -/
def Disk.setModified (d : Disk) (b : Bool) : Disk := { d with modified := b }

/-- Modelled from the spec: the body of `Disk::clearDisk` is not under `src/`
(only its declaration, part_005 lines 315-318).  The spec states that `clear`
"zeroes ... the whole disk and resets to default track lengths", and the
declaration's contract states "Reverts to a factory-new disk. All disk data
gets erased and the copy protection mark removed", so the model zeroes the
data, resets every halftrack length to the default geometry value `defLen`
(the geometry table's numbers are likewise not under `src/`, hence the
parameter) and clears the write-protection mark and the modified flag. -/
def Disk.clearDisk (defLen : Nat → Nat) (_d : Disk) : Disk :=
  { data := fun _ _ => 0
    length := defLen
    writeProtected := false
    modified := false }

/-! ## Drive controller state -/

/-- The four-state disk-presence machine (`DISK_FULLY_EJECTED`,
`DISK_PARTIALLY_INSERTED`, `DISK_FULLY_INSERTED`, `DISK_PARTIALLY_EJECTED`). -/
inductive InsertionStatus where
  | fullyEjected
  | partiallyInserted
  | fullyInserted
  | partiallyEjected
deriving DecidableEq, Repr

/-- The drive-controller state embedded from `Drive.cpp`.  The two VIA chips
and the drive CPU are external collaborators (see `ViaEnv`); widths: the
free-running counter `counterUF4` and `carryCounter` are modelled as
unbounded `Nat` since the source only ever observes their low bits
(`& 0x03`, `& 0x0C`, `& 0x02`, `% 4`); `readShiftreg` is kept modulo 2^16 and
`writeShiftreg` modulo 2^8, matching the shift/reload logic that observes at
most the low 10 and 8 bits.  `diskChangeCounter` is signed: the vertical-sync
handler pre-decrements it without a lower bound. -/
structure DriveState where
  halftrack : Nat
  offset : Nat
  spinning : Bool
  counterUF4 : Nat
  carryCounter : Nat
  readShiftreg : Nat
  writeShiftreg : Nat
  byteReadyCounter : Nat
  byteReady : Bool
  sync : Bool
  zone : Nat
  insertionStatus : InsertionStatus
  diskToInsert : Option Disk
  diskChangeCounter : Int
  disk : Disk

/-- The observable outputs of the VIA 2 I/O chip consumed by the drive logic
during one step: the CA2 control line, the CB2 control line and the output
latch `getPA`.  Chips are external collaborators of the embedded core. -/
structure ViaEnv where
  ca2 : Bool
  cb2 : Bool
  pa : Nat

/-- Modelled from the spec: `Drive::readMode` lives in the drive header,
which is not under `src/`.  The spec describes sync/byte-ready as functions
of "the I/O chip's control-line state"; the drive is in read mode exactly
when VIA 2's CB2 control line is set. -/
def readMode (env : ViaEnv) : Bool := env.cb2

/-- Embeds `Drive::writeMode`, the negation of `readMode`. -/
def writeMode (env : ViaEnv) : Bool := !env.cb2

/-- Embeds `Drive::readBitFromHead`: reads the bit under the head, i.e.
`disk._readBitFromHalftrack(halftrack, offset)` (bit access from part_005;
the one-line wrapper itself sits in the drive header). -/
def readBitFromHead (s : DriveState) : Bool :=
  s.disk.readBitFromHalftrack s.halftrack s.offset

/-- Embeds `Drive::writeBitToHead`: writes a bit at the current head position. -/
def writeBitToHead (s : DriveState) (bit : Bool) : DriveState :=
  { s with disk := s.disk.writeBitToHalftrack s.halftrack s.offset bit }

/-- Modelled from the spec: `Drive::rotateDisk` is declared in the drive
header, which is not under `src/`.  Per the spec, "the disk head position
advances by one bit, wrapping at halftrack length". -/
def rotateDisk (s : DriveState) : DriveState :=
  if s.offset + 1 ≥ s.disk.length s.halftrack then { s with offset := 0 }
  else { s with offset := s.offset + 1 }

/-- Modelled from the spec: `Drive::getLightBarrier` is declared in the drive
header, which is not under `src/`.  Per the spec's glossary the light barrier
is "the sensor whose blocked/unblocked state the insertion state machine
emulates", the in-source comments of `Drive::vsyncHandler` state that the
partial insertion/ejection states block it, and the spec's phase-2
description gates surface writes on "not write-protected"; so the barrier is
blocked while the disk is partially inserted or ejected, or write-protected. -/
def getLightBarrier (s : DriveState) : Bool :=
  decide (s.insertionStatus = .partiallyInserted) ||
  decide (s.insertionStatus = .partiallyEjected) ||
  s.disk.writeProtected

/-! ## Byte-ready logic (`Drive::updateByteReady` / `Drive::raiseByteReady`,
Drive.cpp lines 398-431).  The call `via2.CA1action(b)` into the I/O chip is
modelled by emitting `b` into an event list. -/

/-- Embeds `Drive::updateByteReady` (Drive.cpp lines 398-422): recompute the
byte-ready output from `via2.getCA2()`, bit 1 of the free-running counter and
the byte-ready counter; notify `via2.CA1action` only on a change. -/
def updateByteReadyAct (env : ViaEnv) (s : DriveState) : DriveState × List Bool :=
  let qb : Bool := decide (s.counterUF4 &&& 0x02 ≠ 0)
  let ue3 : Bool := decide (s.byteReadyCounter = 7)
  let newByteReady : Bool := !(env.ca2 && !qb && ue3)
  if s.byteReady ≠ newByteReady then
    ({ s with byteReady := newByteReady }, [newByteReady])
  else (s, [])

/-- Embeds `Drive::raiseByteReady` (Drive.cpp lines 424-431): unconditionally raise
the byte-ready line, notifying `via2.CA1action(true)` only if it was low. -/
def raiseByteReadyAct (s : DriveState) : DriveState × List Bool :=
  if !s.byteReady then ({ s with byteReady := true }, [true]) else (s, [])

/-! ## Bit-cell logic (`Drive::executeUF4`, Drive.cpp lines 304-396) -/

/-- The part of `Drive::executeUF4` preceding the phase switch (Drive.cpp
lines 307-326): increment the two counters, every fourth carry pulse reset
counter UF4 on an incoming 1-bit in read mode and advance the head, then
recompute the SYNC signal from the low 10 bits of the read shift register and
the write mode, resetting the byte-ready counter when sync is lost. -/
def preStep (env : ViaEnv) (s : DriveState) : DriveState :=
  let s1 := { s with counterUF4 := s.counterUF4 + 1,
                     carryCounter := s.carryCounter + 1 }
  let s2 :=
    if s1.carryCounter % 4 = 0 then
      rotateDisk (if readMode env && readBitFromHead s1 then
                    { s1 with counterUF4 := 0 } else s1)
    else s1
  let s3 := { s2 with
    sync := decide ((s2.readShiftreg &&& 0x3FF) ≠ 0x3FF) || writeMode env }
  if !s3.sync then { s3 with byteReadyCounter := 0 } else s3

/-- The phase-2 actions of `Drive::executeUF4` after the byte-ready raise
(Drive.cpp lines 373-386): advance the byte-ready counter (reset if sync is
lost), shift the top bit of the write shift register onto the surface when in
write mode with an open light barrier (marking the disk modified), then shift
both shift registers. -/
def phase2Tail (env : ViaEnv) (s : DriveState) : DriveState :=
  let s1 := { s with byteReadyCounter :=
                if s.sync then (s.byteReadyCounter + 1) % 8 else 0 }
  let s2 :=
    if writeMode env && !getLightBarrier s1 then
      let s' := writeBitToHead s1 (decide (s1.writeShiftreg &&& 0x80 ≠ 0))
      { s' with disk := s'.disk.setModified true }
    else s1
  let s3 := { s2 with writeShiftreg := (s2.writeShiftreg <<< 1) % 256 }
  { s3 with readShiftreg :=
      ((s3.readShiftreg <<< 1) % 65536) |||
      (if s3.counterUF4 &&& 0x0C = 0 then 1 else 0) }

/-- Embeds `Drive::executeUF4` (Drive.cpp lines 304-396): one bit-cell step.
Returns the successor state together with the list of values passed to the
edge-triggered `via2.CA1action` input during the step. -/
def executeUF4 (env : ViaEnv) (s : DriveState) : DriveState × List Bool :=
  let m := preStep env s
  match m.counterUF4 &&& 0x03 with
  | 0 => updateByteReadyAct env m
  | 1 => updateByteReadyAct env m
  | 2 =>
    let p := raiseByteReadyAct m
    (phase2Tail env p.1, p.2)
  | _ =>
    (if m.byteReadyCounter = 7 then { m with writeShiftreg := env.pa % 256 }
     else m, [])

/-! ## Head stepping (`Drive::moveHeadUp` / `Drive::moveHeadDown`, Drive.cpp
lines 466-503).  The source computes the new offset as
`(HeadPos)((float)offset / (float)len(ht) * len(ht'))`; the float quotient
and product are idealized here as exact rational arithmetic followed by the
source's truncating cast, i.e. `offset * len(ht') / len(ht)` in `Nat`. -/

/-- Embeds `Drive::moveHeadUp` (Drive.cpp lines 466-484): below halftrack 84, step
up one halftrack and rescale the bit offset by the ratio of new-to-old
halftrack bit length; at halftrack 84 the head does not move.  (Message
posting and debug traces are host-facing and not modelled.) -/
def moveHeadUp (s : DriveState) : DriveState :=
  if s.halftrack < 84 then
    { s with halftrack := s.halftrack + 1,
             offset := s.offset * s.disk.length (s.halftrack + 1) /
                       s.disk.length s.halftrack }
  else s

/-- Embeds `Drive::moveHeadDown` (Drive.cpp lines 486-503): above halftrack 1, step
down one halftrack and rescale the bit offset proportionally. -/
def moveHeadDown (s : DriveState) : DriveState :=
  if s.halftrack > 1 then
    { s with halftrack := s.halftrack - 1,
             offset := s.offset * s.disk.length (s.halftrack - 1) /
                       s.disk.length s.halftrack }
  else s

/-! ## Disk insertion and ejection (Drive.cpp lines 525-667) -/

/-- Embeds `Drive::insertDisk(Disk *)` (Drive.cpp lines 525-540): stage a pending
disk and start the debounce counter only when no disk change is already
staged.  The suspend/resume bracket is the single-threaded mutual-exclusion
convention and has no state of its own. -/
def insertDisk (d : Disk) (s : DriveState) : DriveState :=
  match s.diskToInsert with
  | none => { s with diskToInsert := some d, diskChangeCounter := 1 }
  | some _ => s

/-- Embeds `Drive::ejectDisk` (Drive.cpp lines 577-591): start the debounce counter
only when the disk is fully inserted and no disk change is staged. -/
def ejectDisk (s : DriveState) : DriveState :=
  match s.insertionStatus, s.diskToInsert with
  | .fullyInserted, none => { s with diskChangeCounter := 1 }
  | _, _ => s

/-- The debounce delay rearmed after each insertion-state transition
(the literal 17 of Drive.cpp lines 612, 627, 641). -/
def debounceDelay : Nat := 17

/-- Embeds `Drive::vsyncHandler` (Drive.cpp lines 593-667): pre-decrement the
debounce counter and return unless it reached zero; otherwise perform one
transition of the four-state insertion machine.  On the ejection edge the
live surface is cleared (`disk.clearDisk()`, with default geometry `defLen`);
on the insertion edge the staged disk's serialized image — its data, length,
write-protection and modified flags, per `Disk::applyToPersistentItems`
(part_005 lines 179-188) — is loaded into the live disk and the staging
reference is dropped.  Host messages are not modelled. -/
def vsyncHandler (defLen : Nat → Nat) (s : DriveState) : DriveState :=
  let s := { s with diskChangeCounter := s.diskChangeCounter - 1 }
  if s.diskChangeCounter ≠ 0 then s
  else
    match s.insertionStatus with
    | .fullyInserted =>
      { s with insertionStatus := .partiallyEjected,
               disk := s.disk.clearDisk defLen,
               diskChangeCounter := (debounceDelay : Int) }
    | .partiallyEjected =>
      { s with insertionStatus := .fullyEjected,
               diskChangeCounter := (debounceDelay : Int) }
    | .fullyEjected =>
      match s.diskToInsert with
      | none => s
      | some _ =>
        { s with insertionStatus := .partiallyInserted,
                 diskChangeCounter := (debounceDelay : Int) }
    | .partiallyInserted =>
      match s.diskToInsert with
      | none => s
      | some d =>
        { s with insertionStatus := .fullyInserted,
                 disk := d,
                 diskToInsert := none }

/-! ## The dual-clock execution loop (`Drive::execute`, Drive.cpp lines
276-302).  Only the deadline counters are modelled: the per-iteration CPU and
VIA servicing, the IEC update and the bit-cell step do not feed back into the
loop's control state (the speed zone is treated as fixed for the duration of
the call).  `delay` stands for `delayBetweenTwoCarryPulses[zone]`, whose
value is drive configuration outside `src/`; `10000` is the source's literal
CPU-cycle step. -/

/-- The `while` loop of `Drive::execute`: fire whichever of the two deadlines
is nearer until both counters have caught up with the elapsed-time
watermark. -/
def executeLoop (delay : Nat) (hd : 0 < delay) (elapsed nextClock nextCarry : Int) :
    Int × Int :=
  if h : nextClock < elapsed ∨ nextCarry < elapsed then
    if h2 : nextClock ≤ nextCarry then
      executeLoop delay hd elapsed (nextClock + 10000) nextCarry
    else
      executeLoop delay hd elapsed nextClock (nextCarry + delay)
  else (nextClock, nextCarry)
termination_by (elapsed - nextClock).toNat + (elapsed - nextCarry).toNat
decreasing_by
  · omega
  · omega

/-- Embeds `Drive::execute(duration)`: advance the elapsed-time watermark, then run
the deadline loop. -/
def execute (delay : Nat) (hd : 0 < delay) (duration : Nat)
    (elapsed nextClock nextCarry : Int) : Int × Int :=
  executeLoop delay hd (elapsed + duration) nextClock nextCarry

/-! ## Byte-ready notification traces (for the temporal claim about
`via2.CA1action`).  A trace interleaves bit-cell steps (`Drive::executeUF4`)
with stand-alone byte-ready recomputations (`Drive::updateByteReady`, as
called from the CPU-cycle path of `Drive::execute` and from VIA register
accesses), each with its own snapshot of the VIA outputs. -/

/-- One drive operation of a byte-ready trace. -/
inductive DriveOp where
  | bitCell (env : ViaEnv)
  | recompute (env : ViaEnv)

/-- Apply one trace operation, yielding the successor state and the values
passed to `via2.CA1action`. -/
def applyOp : DriveOp → DriveState → DriveState × List Bool
  | .bitCell env, s => executeUF4 env s
  | .recompute env, s => updateByteReadyAct env s

/-- Run a trace, counting every invocation of `via2.CA1action`. -/
def runOps : List DriveOp → DriveState → DriveState × Nat
  | [], s => (s, 0)
  | op :: rest, s =>
    let p := applyOp op s
    let q := runOps rest p.1
    (q.1, p.2.length + q.2)

/-- The number of changes of the byte-ready value along a trace. -/
def byteReadyFlips : List DriveOp → DriveState → Nat
  | [], _ => 0
  | op :: rest, s =>
    let s' := (applyOp op s).1
    (if s'.byteReady = s.byteReady then 0 else 1) + byteReadyFlips rest s'

/-! ## T64 archive repair (`T64File`, Funplay.h lines 391-542) -/

/-- A T64 archive: the raw byte buffer (`data`, addressed as a function) and
its size.  Directory entry `n` occupies bytes `0x40 + 32n .. 0x5F + 32n`. -/
structure T64 where
  size : Nat
  data : Nat → Nat

/-- Embeds `T64File::collectionCount` (Funplay.h lines 391-395):
`LO_HI(data[0x24], data[0x25])`. -/
def T64.collectionCount (t : T64) : Nat := t.data 0x24 + 256 * t.data 0x25

/-- Embeds `T64File::memStart` (Funplay.h lines 447-451): the two-byte load address
of item `nr`. -/
def T64.memStart (t : T64) (nr : Nat) : Nat :=
  t.data (0x42 + nr * 0x20) + 256 * t.data (0x43 + nr * 0x20)

/-- Embeds `T64File::memEnd` (Funplay.h lines 453-457): the two-byte end address of
item `nr`. -/
def T64.memEnd (t : T64) (nr : Nat) : Nat :=
  t.data (0x44 + nr * 0x20) + 256 * t.data (0x45 + nr * 0x20)

/-- The four-byte container offset of item `nr` read in `T64File::repair`
(Funplay.h lines 509-510); the source assigns the `LO_LO_HI_HI` 32-bit value
to a `u16`, hence the truncation modulo 2^16. -/
def T64.containerStart (t : T64) (nr : Nat) : Nat :=
  (t.data (0x48 + nr * 0x20) + 256 * t.data (0x49 + nr * 0x20) +
   65536 * t.data (0x4A + nr * 0x20) + 16777216 * t.data (0x4B + nr * 0x20)) % 65536

/-- Embeds `T64File::directoryItemIsPresent` (Funplay.h lines 459-473): a directory
slot is present when its 32 bytes fit inside the buffer and at least one of
them is non-zero. -/
def T64.directoryItemIsPresent (t : T64) (item : Nat) : Bool :=
  decide (0x60 + item * 0x20 < t.size) &&
  (List.range 0x20).any fun k => decide (t.data (0x40 + item * 0x20 + k) ≠ 0)

/-- The scan loop of `T64File::repair` (`while (directoryItemIsPresent(n))
n++`, Funplay.h lines 487-488), written with explicit fuel; `T64.scanItems`
supplies enough fuel for the loop to run to completion (every present slot
index is below `size / 32`). -/
def T64.scanFrom (t : T64) : Nat → Nat → Nat
  | 0, item => item
  | fuel + 1, item =>
    if t.directoryItemIsPresent item then t.scanFrom fuel (item + 1) else item

/-- The number of consecutive present directory slots, counted from slot 0. -/
def T64.scanItems (t : T64) : Nat := t.scanFrom t.size 0

/-- Write a 16-bit value into the item-count field, bytes `0x24`/`0x25`
(Funplay.h lines 495-496). -/
def T64.writeCount (t : T64) (n : Nat) : T64 :=
  { t with data := fun j =>
      if j = 0x24 then n % 256
      else if j = 0x25 then n / 256 % 256
      else t.data j }

/-- One iteration of the per-item loop of `T64File::repair` (Funplay.h lines
502-539): fail when the item's container offset lies outside the buffer;
patch the end address when it equals the CONVC64 sentinel `0xC3C6`. -/
def T64.patchItem (t : T64) (i : Nat) : Option T64 :=
  if t.containerStart i ≥ t.size then none
  else if t.memEnd i = 0xC3C6 then
    let fixedEnd := (t.memStart i + (t.size - t.containerStart i)) % 65536
    some { t with data := fun j =>
        if j = 0x44 + i * 0x20 then fixedEnd % 256
        else if j = 0x45 + i * 0x20 then fixedEnd / 256 % 256
        else t.data j }
  else some t

/-- The per-item loop of `T64File::repair`, running over `count` items
starting at index `i`. -/
def T64.repairItems (t : T64) (i : Nat) : Nat → Option T64
  | 0 => some t
  | count + 1 =>
    match t.patchItem i with
    | none => none
    | some t' => t'.repairItems (i + 1) count

/-- Embeds `T64File::repair` (Funplay.h lines 475-542): when the header item count
is zero, infer it by scanning consecutive directory slots and rewrite the
count field if the inferred count differs; then check every item's container
offset and patch every CONVC64 end-address sentinel.  `none` models the
`return false` of an unrepairable archive.  (The `trace`/`warn` logging is
host output and not modelled.) -/
def T64.repair (t : T64) : Option T64 :=
  let n0 := t.collectionCount
  let n := if n0 = 0 then t.scanItems else n0
  let t1 := if n0 = 0 ∧ n ≠ 0 then t.writeCount n else t
  t1.repairItems 0 n

/-! ## Concrete fixtures for witnesses and counterexamples -/

/-- A blank disk with a uniform surface and uniform halftrack length. -/
def blankDisk : Disk :=
  { data := fun _ _ => 0
    length := fun _ => 63424
    writeProtected := false
    modified := false }

/-- A baseline drive state used to build concrete test states. -/
def baseState : DriveState :=
  { halftrack := 41
    offset := 0
    spinning := true
    counterUF4 := 0
    carryCounter := 0
    readShiftreg := 0
    writeShiftreg := 0
    byteReadyCounter := 0
    byteReady := false
    sync := false
    zone := 1
    insertionStatus := .fullyEjected
    diskToInsert := none
    diskChangeCounter := 0
    disk := blankDisk }

/-- A staged disk with recognizable content, used by the insertion witness. -/
def stagedDisk : Disk :=
  { data := fun ht i => if ht = 1 ∧ i = 0 then 0xA5 else 0
    length := fun _ => 7692
    writeProtected := true
    modified := false }

/-- A disk whose halftrack 41 has 100 bits and halftrack 42 a single bit,
exposing the head-stepping roundtrip error. -/
def narrowDisk : Disk :=
  { blankDisk with length := fun ht => if ht = 42 then 1 else 100 }

/-- Head at halftrack 41, bit offset 99, over `narrowDisk`. -/
def headState : DriveState :=
  { baseState with offset := 99, disk := narrowDisk }

/-- A fully inserted, write-protected disk one tick away from the ejection
transition. -/
def protectedState : DriveState :=
  { baseState with
    insertionStatus := .fullyInserted
    diskChangeCounter := 1
    disk := { blankDisk with writeProtected := true } }

/-- A drive state about to take a phase-2 bit-cell step with the low ten bits
of the read shift register one shift away from all-ones. -/
def phase2State : DriveState :=
  { baseState with counterUF4 := 1, readShiftreg := 0x1FF }

/-- A drive state whose read shift register already holds ten 1-bits, so the
next bit-cell step loses sync (in read mode). -/
def syncLostState : DriveState :=
  { baseState with counterUF4 := 1, readShiftreg := 0x3FF }

/-- VIA outputs with CA2 set and CB2 set (read mode). -/
def readEnv : ViaEnv := { ca2 := true, cb2 := true, pa := 0x42 }

/-- A corrupted T64 archive: the header's item-count field is zero, directory
slot 0 is present with the CONVC64 end-address sentinel `0xC3C6`, load
address `0x0801`, container offset `0x60`, and 16 tail data bytes
(size `0x70`). -/
def brokenArchive : T64 :=
  { size := 0x70
    data := fun j =>
      if j = 0x40 then 1
      else if j = 0x42 then 0x01
      else if j = 0x43 then 0x08
      else if j = 0x44 then 0xC6
      else if j = 0x45 then 0xC3
      else if j = 0x48 then 0x60
      else 0 }

/-! ## Theorems -/

/-- Claim C2: for every 4-bit value `v`, decoding the 5-bit GCR encoding of
`v` yields `v` (`gcr2bin (bin2gcr v) = v`); every 5-bit pattern that is not
among the 16 valid codewords decodes to the sentinel `0xFF`; `isGcr` holds
exactly on the image of `bin2gcr`; and exactly 16 of the 32 patterns are
invalid. -/
theorem claim_C2_gcr_roundtrip :
    (∀ v : Nat, v < 16 → gcr2bin (bin2gcr v) = v) ∧
    (∀ w : Nat, w < 32 → (∀ v : Nat, v < 16 → bin2gcr v ≠ w) → gcr2bin w = 0xFF) ∧
    (∀ w : Nat, w < 32 → (isGcr w = true ↔ ∃ v : Nat, v < 16 ∧ bin2gcr v = w)) ∧
    ((List.range 32).filter (fun w => !isGcr w)).length = 16 := by
  refine ⟨?_, ?_, ?_, ?_⟩ <;> decide

/-- Witness for C2 at concrete inputs: nibble 5 survives the roundtrip and
the unused pattern `0x08` decodes to the sentinel. -/
theorem claim_C2_gcr_roundtrip_witness :
    (5 < 16 ∧ gcr2bin (bin2gcr 5) = 5) ∧
    (8 < 32 ∧ gcr2bin 8 = 0xFF) :=
  ⟨⟨by decide, claim_C2_gcr_roundtrip.1 5 (by decide)⟩,
   ⟨by decide, claim_C2_gcr_roundtrip.2.1 8 (by decide) (by decide)⟩⟩

/-- Claim C5: while a pending disk is staged, any further `insertDisk` call
leaves the drive state — in particular the staged reference and the debounce
counter — unchanged; and `ejectDisk` changes no drive state unless the
insertion status is `FULLY_INSERTED` with no pending disk staged. -/
theorem claim_C5_swap_in_flight_frame :
    (∀ (s : DriveState) (d d2 : Disk), s.diskToInsert = some d →
       insertDisk d2 s = s) ∧
    (∀ s : DriveState,
       s.insertionStatus ≠ .fullyInserted ∨ s.diskToInsert ≠ none →
       ejectDisk s = s) := by
  constructor
  · intro s d d2 h
    unfold insertDisk
    rw [h]
  · intro s h
    unfold ejectDisk
    split
    · next hst hdt =>
        rcases h with h | h
        · exact absurd hst h
        · exact absurd hdt h
    · rfl

/-- Witness for C5: with disk `stagedDisk` pending, inserting `blankDisk` is
a no-op, and ejecting from the fully-ejected `baseState` is a no-op. -/
theorem claim_C5_swap_in_flight_frame_witness :
    insertDisk blankDisk
        { baseState with diskToInsert := some stagedDisk } =
      { baseState with diskToInsert := some stagedDisk } ∧
    ejectDisk baseState = baseState :=
  ⟨claim_C5_swap_in_flight_frame.1 _ stagedDisk blankDisk rfl,
   claim_C5_swap_in_flight_frame.2 baseState (Or.inl (by decide))⟩

/-- The deadline loop leaves both counters at or above the elapsed-time
watermark. -/
theorem executeLoop_ge (delay : Nat) (hd : 0 < delay)
    (elapsed nextClock nextCarry : Int) :
    elapsed ≤ (executeLoop delay hd elapsed nextClock nextCarry).1 ∧
    elapsed ≤ (executeLoop delay hd elapsed nextClock nextCarry).2 := by
  induction nextClock, nextCarry using executeLoop.induct delay hd elapsed with
  | case1 nextClock nextCarry hcond hle ih =>
      rw [executeLoop, dif_pos hcond, dif_pos hle]
      exact ih
  | case2 nextClock nextCarry hcond hle ih =>
      rw [executeLoop, dif_pos hcond, dif_neg hle]
      exact ih
  | case3 nextClock nextCarry hcond =>
      rw [executeLoop, dif_neg hcond]
      constructor <;> simp <;> omega

/-- Claim C4: `Drive::execute(duration)` terminates for every duration (the
embedded `execute` is a total function, whose recursion is well-founded given
that the carry delay and the fixed 10000-unit CPU-cycle step are positive),
and on return both deadline counters are at or above the advanced
elapsed-time watermark: no CPU-cycle or carry deadline at or before the
watermark is left unfired. -/
theorem claim_C4_execute_deadlines (delay : Nat) (hd : 0 < delay)
    (duration : Nat) (elapsed nextClock nextCarry : Int) :
    elapsed + duration ≤ (execute delay hd duration elapsed nextClock nextCarry).1 ∧
    elapsed + duration ≤ (execute delay hd duration elapsed nextClock nextCarry).2 :=
  executeLoop_ge delay hd (elapsed + duration) nextClock nextCarry

/-- Witness for C4 at a concrete run: a carry delay of 4 units, duration
20000, all counters starting at 0. -/
theorem claim_C4_execute_deadlines_witness :
    (0 : Nat) < 4 ∧
    ((0 : Int) + 20000 ≤ (execute 4 (by decide) 20000 0 0 0).1 ∧
     (0 : Int) + 20000 ≤ (execute 4 (by decide) 20000 0 0 0).2) :=
  ⟨by decide, claim_C4_execute_deadlines 4 (by decide) 20000 0 0 0⟩

/-- Truncated-rescaling roundtrip bound: rescaling `o < a` by `b / a` and
back by `a / b`, truncating each time, never increases the offset and loses
less than `a / b + 1` units. -/
theorem head_roundtrip_bounds (a b o : Nat) (ha : o < a) (hb : 0 < b) :
    o * b / a * a / b ≤ o ∧ (o - o * b / a * a / b) * b < a + b := by
  have ha0 : 0 < a := Nat.pos_of_ne_zero (by omega)
  have e1 : a * (o * b / a) + o * b % a = o * b := Nat.div_add_mod (o * b) a
  have m1 : o * b % a < a := Nat.mod_lt _ ha0
  have e2 : b * (o * b / a * a / b) + o * b / a * a % b = o * b / a * a :=
    Nat.div_add_mod (o * b / a * a) b
  have m2 : o * b / a * a % b < b := Nat.mod_lt _ hb
  have hle : o * b / a * a / b ≤ o := by
    have h3 : b * (o * b / a * a / b) ≤ a * (o * b / a) := by
      calc b * (o * b / a * a / b) ≤ o * b / a * a := by omega
        _ = a * (o * b / a) := Nat.mul_comm _ _
    have h4 : b * (o * b / a * a / b) ≤ b * o := by
      calc b * (o * b / a * a / b) ≤ a * (o * b / a) := h3
        _ ≤ o * b := by omega
        _ = b * o := Nat.mul_comm _ _
    exact Nat.le_of_mul_le_mul_left h4 hb
  refine ⟨hle, ?_⟩
  rcases Nat.le.dest hle with ⟨k, hk⟩
  have hok : o - o * b / a * a / b = k := by omega
  rw [hok]
  have hexp : o * b = o * b / a * a / b * b + k * b := by
    calc o * b = (o * b / a * a / b + k) * b := by rw [hk]
      _ = o * b / a * a / b * b + k * b := Nat.add_mul _ _ _
  have hq1a : o * b / a * a = a * (o * b / a) := Nat.mul_comm _ _
  have hq2b : o * b / a * a / b * b = b * (o * b / a * a / b) := Nat.mul_comm _ _
  omega

/-- Claim C6 (amended): `moveHeadUp` at halftrack 84 and `moveHeadDown` at
halftrack 1 leave the drive state unchanged; for `1 ≤ h < 84` and a valid
offset, stepping up yields halftrack `h + 1` with a valid offset, stepping
back down returns to halftrack `h` with a valid offset that is at most the
original, and the roundtrip error `e` satisfies
`e * len (h+1) < len h + len (h+1)` — in particular `e ≤ 1` (the claim's
"one unit") when the two halftracks have equal bit length, but not in
general (see the counterexample).  The source's float arithmetic is
idealized as exact rational arithmetic followed by its truncating cast. -/
theorem claim_C6_head_stepping_amended :
    (∀ s : DriveState, s.halftrack = 84 → moveHeadUp s = s) ∧
    (∀ s : DriveState, s.halftrack = 1 → moveHeadDown s = s) ∧
    (∀ s : DriveState, 1 ≤ s.halftrack → s.halftrack < 84 →
      s.offset < s.disk.length s.halftrack →
      0 < s.disk.length (s.halftrack + 1) →
      (moveHeadUp s).halftrack = s.halftrack + 1 ∧
      (moveHeadUp s).offset < s.disk.length (s.halftrack + 1) ∧
      (moveHeadDown (moveHeadUp s)).halftrack = s.halftrack ∧
      (moveHeadDown (moveHeadUp s)).offset ≤ s.offset ∧
      (moveHeadDown (moveHeadUp s)).offset < s.disk.length s.halftrack ∧
      (s.offset - (moveHeadDown (moveHeadUp s)).offset) *
          s.disk.length (s.halftrack + 1) <
        s.disk.length s.halftrack + s.disk.length (s.halftrack + 1) ∧
      (s.disk.length (s.halftrack + 1) = s.disk.length s.halftrack →
        s.offset - (moveHeadDown (moveHeadUp s)).offset ≤ 1)) := by
  refine ⟨?_, ?_, ?_⟩
  · intro s h
    unfold moveHeadUp
    rw [if_neg (by omega)]
  · intro s h
    unfold moveHeadDown
    rw [if_neg (by omega)]
  · intro s h1 h84 hvalid hb
    have ha0 : 0 < s.disk.length s.halftrack := by omega
    have hup : moveHeadUp s =
        { s with halftrack := s.halftrack + 1,
                 offset := s.offset * s.disk.length (s.halftrack + 1) /
                           s.disk.length s.halftrack } := by
      unfold moveHeadUp
      rw [if_pos h84]
    have hdown : moveHeadDown (moveHeadUp s) =
        { s with halftrack := s.halftrack,
                 offset := s.offset * s.disk.length (s.halftrack + 1) /
                             s.disk.length s.halftrack *
                             s.disk.length s.halftrack /
                             s.disk.length (s.halftrack + 1) } := by
      rw [hup]
      unfold moveHeadDown
      rw [if_pos (by omega : s.halftrack + 1 > 1)]
      simp
    have hbounds := head_roundtrip_bounds (s.disk.length s.halftrack)
      (s.disk.length (s.halftrack + 1)) s.offset hvalid hb
    have hupoff : (moveHeadUp s).offset < s.disk.length (s.halftrack + 1) := by
      rw [hup]
      simp only
      rw [Nat.div_lt_iff_lt_mul ha0]
      calc s.offset * s.disk.length (s.halftrack + 1)
          < s.disk.length s.halftrack * s.disk.length (s.halftrack + 1) :=
            (Nat.mul_lt_mul_right hb).mpr hvalid
        _ = s.disk.length (s.halftrack + 1) * s.disk.length s.halftrack :=
            Nat.mul_comm _ _
    refine ⟨by rw [hup], hupoff, by rw [hdown], ?_, ?_, ?_, ?_⟩
    · rw [hdown]
      exact hbounds.1
    · rw [hdown]
      exact Nat.lt_of_le_of_lt hbounds.1 hvalid
    · rw [hdown]
      exact hbounds.2
    · intro heq
      rw [hdown]
      simp only
      have := hbounds.2
      rw [heq] at this
      by_contra hcon
      have h2 : 2 ≤ s.offset - s.offset * s.disk.length s.halftrack /
          s.disk.length s.halftrack * s.disk.length s.halftrack /
          s.disk.length s.halftrack := by
        rw [heq] at hcon
        omega
      have := Nat.mul_le_mul_right (s.disk.length s.halftrack) h2
      rw [heq] at hbounds
      omega

/-- Counterexample to C6 as stated: over a disk whose halftrack 41 holds 100
bits and halftrack 42 a single bit, the head at halftrack 41, offset 99
(a valid position) returns from an up-then-down roundtrip at offset 0 — an
error of 99 bit units, not within one unit of the original proportional
position. -/
theorem claim_C6_head_stepping_counterexample :
    headState.halftrack = 41 ∧ headState.offset = 99 ∧
    headState.offset < headState.disk.length headState.halftrack ∧
    (moveHeadDown (moveHeadUp headState)).halftrack = 41 ∧
    (moveHeadDown (moveHeadUp headState)).offset = 0 ∧
    ¬(headState.offset - (moveHeadDown (moveHeadUp headState)).offset ≤ 1) := by
  refine ⟨rfl, rfl, by decide, by decide, by decide, by decide⟩

/-- Witness for the amended C6: a roundtrip from halftrack 41, offset 3, over
the uniform-length `blankDisk`. -/
theorem claim_C6_head_stepping_amended_witness :
    ((1 : Nat) ≤ 41 ∧ (41 : Nat) < 84 ∧
     ({ baseState with offset := 3 } : DriveState).offset <
       ({ baseState with offset := 3 } : DriveState).disk.length 41 ∧
     (0 : Nat) < ({ baseState with offset := 3 } : DriveState).disk.length 42) ∧
    (moveHeadDown (moveHeadUp { baseState with offset := 3 })).halftrack =
      ({ baseState with offset := 3 } : DriveState).halftrack :=
  ⟨⟨by decide, by decide, by decide, by decide⟩,
   (claim_C6_head_stepping_amended.2.2 { baseState with offset := 3 }
     (by decide) (by decide) (by decide) (by decide)).2.2.1⟩

/-- The helper `rotateDisk` only moves the head offset. -/
theorem rotateDisk_fields (s : DriveState) :
    (rotateDisk s).disk = s.disk ∧ (rotateDisk s).byteReady = s.byteReady ∧
    (rotateDisk s).sync = s.sync ∧
    (rotateDisk s).byteReadyCounter = s.byteReadyCounter ∧
    (rotateDisk s).readShiftreg = s.readShiftreg ∧
    (rotateDisk s).writeShiftreg = s.writeShiftreg := by
  unfold rotateDisk
  split <;> exact ⟨rfl, rfl, rfl, rfl, rfl, rfl⟩

/-- The pre-switch part of the bit-cell step: the disk, the byte-ready flag
and the shift registers are untouched; sync is recomputed from the incoming
read shift register and the write mode; the byte-ready counter survives
exactly when sync holds. -/
theorem preStep_fields (env : ViaEnv) (s : DriveState) :
    (preStep env s).disk = s.disk ∧
    (preStep env s).byteReady = s.byteReady ∧
    (preStep env s).readShiftreg = s.readShiftreg ∧
    (preStep env s).writeShiftreg = s.writeShiftreg ∧
    (preStep env s).sync =
      (decide ((s.readShiftreg &&& 0x3FF) ≠ 0x3FF) || writeMode env) ∧
    (preStep env s).byteReadyCounter =
      (if (decide ((s.readShiftreg &&& 0x3FF) ≠ 0x3FF) || writeMode env) = true
       then s.byteReadyCounter else 0) := by
  unfold preStep rotateDisk
  dsimp only
  refine ⟨?_, ?_, ?_, ?_, ?_, ?_⟩ <;> split_ifs <;> simp_all

/-- The embedded `Drive::updateByteReady` only toggles the byte-ready flag. -/
theorem updateByteReadyAct_frame (env : ViaEnv) (s : DriveState) :
    ((updateByteReadyAct env s).1).disk = s.disk ∧
    ((updateByteReadyAct env s).1).sync = s.sync ∧
    ((updateByteReadyAct env s).1).byteReadyCounter = s.byteReadyCounter ∧
    ((updateByteReadyAct env s).1).counterUF4 = s.counterUF4 := by
  unfold updateByteReadyAct
  dsimp only
  split_ifs <;> simp_all

/-- The embedded `Drive::updateByteReady` notifies `via2.CA1action` exactly when the
recomputed byte-ready value differs from the previous one. -/
theorem updateByteReadyAct_count (env : ViaEnv) (s : DriveState) :
    ((updateByteReadyAct env s).2).length =
      (if ((updateByteReadyAct env s).1).byteReady = s.byteReady then 0 else 1) := by
  unfold updateByteReadyAct
  dsimp only
  split_ifs <;> simp_all

/-- The embedded `Drive::raiseByteReady` only raises the byte-ready flag; it notifies
exactly when the flag was low. -/
theorem raiseByteReadyAct_fields (s : DriveState) :
    ((raiseByteReadyAct s).1).disk = s.disk ∧
    ((raiseByteReadyAct s).1).sync = s.sync ∧
    ((raiseByteReadyAct s).1).byteReadyCounter = s.byteReadyCounter ∧
    ((raiseByteReadyAct s).1).counterUF4 = s.counterUF4 ∧
    ((raiseByteReadyAct s).1).byteReady = true ∧
    ((raiseByteReadyAct s).2).length =
      (if ((raiseByteReadyAct s).1).byteReady = s.byteReady then 0 else 1) := by
  unfold raiseByteReadyAct
  cases h : s.byteReady <;> simp_all

/-- The phase-2 tail: the byte-ready flag, sync, counter UF4 and the disk's
write-protection mark are untouched; the byte-ready counter advances modulo 8
under sync and resets otherwise. -/
theorem phase2Tail_fields (env : ViaEnv) (s : DriveState) :
    (phase2Tail env s).byteReady = s.byteReady ∧
    (phase2Tail env s).sync = s.sync ∧
    (phase2Tail env s).counterUF4 = s.counterUF4 ∧
    (phase2Tail env s).disk.writeProtected = s.disk.writeProtected ∧
    (phase2Tail env s).byteReadyCounter =
      (if s.sync = true then (s.byteReadyCounter + 1) % 8 else 0) := by
  unfold phase2Tail writeBitToHead Disk.writeBitToHalftrack Disk.setModified
  dsimp only
  refine ⟨?_, ?_, ?_, ?_, ?_⟩ <;> split_ifs <;> simp_all

/-- A bit-cell step never touches the disk's write-protection mark. -/
theorem executeUF4_writeProtected (env : ViaEnv) (s : DriveState) :
    ((executeUF4 env s).1).disk.writeProtected = s.disk.writeProtected := by
  have hpre := preStep_fields env s
  unfold executeUF4
  dsimp only
  split
  · rw [(updateByteReadyAct_frame env (preStep env s)).1, hpre.1]
  · rw [(updateByteReadyAct_frame env (preStep env s)).1, hpre.1]
  · rw [(phase2Tail_fields env (raiseByteReadyAct (preStep env s)).1).2.2.2.1,
        (raiseByteReadyAct_fields (preStep env s)).1, hpre.1]
  · split_ifs <;> rw [hpre.1]

/-- A bit-cell step notifies `via2.CA1action` exactly when the byte-ready
value changes. -/
theorem executeUF4_count (env : ViaEnv) (s : DriveState) :
    ((executeUF4 env s).2).length =
      (if ((executeUF4 env s).1).byteReady = s.byteReady then 0 else 1) := by
  have hpre := preStep_fields env s
  unfold executeUF4
  dsimp only
  split
  · rw [updateByteReadyAct_count env (preStep env s), hpre.2.1]
  · rw [updateByteReadyAct_count env (preStep env s), hpre.2.1]
  · rw [(phase2Tail_fields env (raiseByteReadyAct (preStep env s)).1).1,
        (raiseByteReadyAct_fields (preStep env s)).2.2.2.2.2, hpre.2.1]
  · split_ifs <;> simp_all

/-- After a bit-cell step the stored sync flag equals the sync formula
evaluated on the read shift register as it was when sync was recomputed,
i.e. on the pre-step register value. -/
theorem executeUF4_sync (env : ViaEnv) (s : DriveState) :
    ((executeUF4 env s).1).sync =
      (decide ((s.readShiftreg &&& 0x3FF) ≠ 0x3FF) || writeMode env) := by
  have hpre := preStep_fields env s
  unfold executeUF4
  dsimp only
  split
  · rw [(updateByteReadyAct_frame env (preStep env s)).2.1, hpre.2.2.2.2.1]
  · rw [(updateByteReadyAct_frame env (preStep env s)).2.1, hpre.2.2.2.2.1]
  · rw [(phase2Tail_fields env (raiseByteReadyAct (preStep env s)).1).2.1,
        (raiseByteReadyAct_fields (preStep env s)).2.1, hpre.2.2.2.2.1]
  · split_ifs <;> rw [hpre.2.2.2.2.1]

/-- After a bit-cell step, a lost sync forces the byte-ready counter to 0. -/
theorem executeUF4_syncLost (env : ViaEnv) (s : DriveState)
    (h : ((executeUF4 env s).1).sync = false) :
    ((executeUF4 env s).1).byteReadyCounter = 0 := by
  have hpre := preStep_fields env s
  have hs := executeUF4_sync env s
  rw [h] at hs
  have hm : (preStep env s).byteReadyCounter = 0 := by
    rw [hpre.2.2.2.2.2, ← hs]
    simp
  have hmsync : (preStep env s).sync = false := by
    rw [hpre.2.2.2.2.1, ← hs]
  revert h
  unfold executeUF4
  dsimp only
  split
  · intro _
    rw [(updateByteReadyAct_frame env (preStep env s)).2.2.1, hm]
  · intro _
    rw [(updateByteReadyAct_frame env (preStep env s)).2.2.1, hm]
  · intro _
    rw [(phase2Tail_fields env (raiseByteReadyAct (preStep env s)).1).2.2.2.2,
        (raiseByteReadyAct_fields (preStep env s)).2.1, hmsync]
    simp
  · intro _
    split_ifs <;> rw [hm]

/-- After a phase-2 bit-cell step with sync held, the byte-ready counter
advances modulo 8. -/
theorem executeUF4_phase2Advance (env : ViaEnv) (s : DriveState)
    (h2 : ((executeUF4 env s).1).counterUF4 &&& 0x03 = 2)
    (hs : ((executeUF4 env s).1).sync = true) :
    ((executeUF4 env s).1).byteReadyCounter = (s.byteReadyCounter + 1) % 8 := by
  have hpre := preStep_fields env s
  have hmsync : (preStep env s).sync = true := by
    rw [hpre.2.2.2.2.1, ← executeUF4_sync env s, hs]
  have hm : (preStep env s).byteReadyCounter = s.byteReadyCounter := by
    rw [hpre.2.2.2.2.2]
    rw [hpre.2.2.2.2.1] at hmsync
    rw [hmsync]
    simp
  revert h2
  unfold executeUF4
  dsimp only
  split
  · next heq =>
      intro h2
      rw [(updateByteReadyAct_frame env (preStep env s)).2.2.2] at h2
      rw [heq] at h2
      exact absurd h2 (by decide)
  · next heq =>
      intro h2
      rw [(updateByteReadyAct_frame env (preStep env s)).2.2.2] at h2
      rw [heq] at h2
      exact absurd h2 (by decide)
  · intro _
    rw [(phase2Tail_fields env (raiseByteReadyAct (preStep env s)).1).2.2.2.2,
        (raiseByteReadyAct_fields (preStep env s)).2.1, hmsync,
        (raiseByteReadyAct_fields (preStep env s)).2.2.1, hm]
    simp
  · next x hne0 hne1 hne2 =>
      intro h2
      exfalso
      apply hne2
      split_ifs at h2 <;> simpa using h2

/-- A vertical-sync tick whose pre-decremented counter is still non-zero only
decrements the counter: no insertion-state transition fires. -/
theorem vsyncHandler_noFire (defLen : Nat → Nat) (s : DriveState)
    (h : s.diskChangeCounter ≠ 1) :
    vsyncHandler defLen s = { s with diskChangeCounter := s.diskChangeCounter - 1 } := by
  unfold vsyncHandler
  dsimp only
  rw [if_pos (by omega : s.diskChangeCounter - 1 ≠ 0)]

/-- The firing tick out of `FULLY_INSERTED`: pull the disk half out, clear
the live surface, rearm the debounce counter. -/
theorem vsyncHandler_fireInserted (defLen : Nat → Nat) (s : DriveState)
    (h : s.diskChangeCounter = 1) (hst : s.insertionStatus = .fullyInserted) :
    vsyncHandler defLen s =
      { s with insertionStatus := .partiallyEjected,
               disk := s.disk.clearDisk defLen,
               diskChangeCounter := (debounceDelay : Int) } := by
  unfold vsyncHandler
  dsimp only
  rw [h, if_neg (by decide : ¬((1 : Int) - 1 ≠ 0)), hst]

/-- The firing tick out of `PARTIALLY_EJECTED`: take the disk out, rearm the
debounce counter. -/
theorem vsyncHandler_firePartiallyEjected (defLen : Nat → Nat) (s : DriveState)
    (h : s.diskChangeCounter = 1) (hst : s.insertionStatus = .partiallyEjected) :
    vsyncHandler defLen s =
      { s with insertionStatus := .fullyEjected,
               diskChangeCounter := (debounceDelay : Int) } := by
  unfold vsyncHandler
  dsimp only
  rw [h, if_neg (by decide : ¬((1 : Int) - 1 ≠ 0)), hst]

/-- The firing tick out of `FULLY_EJECTED` with a disk staged: push the new
disk half in, rearm the debounce counter. -/
theorem vsyncHandler_fireEjectedSome (defLen : Nat → Nat) (s : DriveState)
    (d : Disk) (h : s.diskChangeCounter = 1)
    (hst : s.insertionStatus = .fullyEjected) (hd : s.diskToInsert = some d) :
    vsyncHandler defLen s =
      { s with insertionStatus := .partiallyInserted,
               diskChangeCounter := (debounceDelay : Int) } := by
  unfold vsyncHandler
  dsimp only
  rw [h, if_neg (by decide : ¬((1 : Int) - 1 ≠ 0)), hst, hd]

/-- The firing tick out of `FULLY_EJECTED` with no disk staged: only the
counter decrement remains. -/
theorem vsyncHandler_fireEjectedNone (defLen : Nat → Nat) (s : DriveState)
    (h : s.diskChangeCounter = 1)
    (hst : s.insertionStatus = .fullyEjected) (hd : s.diskToInsert = none) :
    vsyncHandler defLen s = { s with diskChangeCounter := 0 } := by
  unfold vsyncHandler
  dsimp only
  rw [h, if_neg (by decide : ¬((1 : Int) - 1 ≠ 0)), hst, hd]
  rfl

/-- The firing tick out of `PARTIALLY_INSERTED` with a disk staged: the
staged disk's serialized content becomes the live disk and the staging
reference is dropped; the counter is not rearmed. -/
theorem vsyncHandler_fireInsertingSome (defLen : Nat → Nat) (s : DriveState)
    (d : Disk) (h : s.diskChangeCounter = 1)
    (hst : s.insertionStatus = .partiallyInserted) (hd : s.diskToInsert = some d) :
    vsyncHandler defLen s =
      { s with insertionStatus := .fullyInserted,
               disk := d, diskToInsert := none, diskChangeCounter := 0 } := by
  unfold vsyncHandler
  dsimp only
  rw [h, if_neg (by decide : ¬((1 : Int) - 1 ≠ 0)), hst, hd]
  rfl

/-- Counting down from `n + 2`, the next `n + 1` ticks only decrement the
counter down to 1. -/
theorem vsyncHandler_countdown (defLen : Nat → Nat) (n : Nat) :
    ∀ s : DriveState, s.diskChangeCounter = n + 2 →
      (vsyncHandler defLen)^[n + 1] s = { s with diskChangeCounter := 1 } := by
  induction n with
  | zero =>
      intro s h
      rw [Function.iterate_one, vsyncHandler_noFire defLen s (by omega), h]
      norm_num
  | succ m ih =>
      intro s h
      rw [Function.iterate_succ_apply, vsyncHandler_noFire defLen s (by omega)]
      have := ih { s with diskChangeCounter := s.diskChangeCounter - 1 } (by simp [h]; omega)
      rw [this]

/-- Once the counter is at or below zero, ticks only push it further down and
nothing else changes. -/
theorem vsyncHandler_stuck (defLen : Nat → Nat) (n : Nat) :
    ∀ s : DriveState, s.diskChangeCounter ≤ 0 →
      (vsyncHandler defLen)^[n] s =
        { s with diskChangeCounter := s.diskChangeCounter - n } := by
  induction n with
  | zero =>
      intro s h
      simp
  | succ m ih =>
      intro s h
      rw [Function.iterate_succ_apply, vsyncHandler_noFire defLen s (by omega)]
      have := ih { s with diskChangeCounter := s.diskChangeCounter - 1 } (by simp; omega)
      rw [this]
      have harith : s.diskChangeCounter - 1 - (m : Int) =
          s.diskChangeCounter - ((m : Nat) + 1 : Nat) := by
        push_cast
        ring
      simp [harith]

/-- Claim C1: from `FULLY_EJECTED` with a disk staged by `insertDisk`
(debounce counter started at 1), exactly `3 ×` the debounce delay
vertical-sync ticks leave the machine in `FULLY_INSERTED` with the staged
disk's content live and the staging reference dropped; from `FULLY_INSERTED`
with nothing staged, after `ejectDisk` exactly `2 ×` the delay ticks leave it
in `FULLY_EJECTED` with the surface cleared; and any tick on which the
pre-decremented debounce counter has not yet reached zero changes no state
besides the counter. -/
theorem claim_C1_insertion_machine :
    (∀ (defLen : Nat → Nat) (s : DriveState) (d : Disk),
      s.insertionStatus = .fullyEjected → s.diskToInsert = some d →
      s.diskChangeCounter = 1 →
      ((vsyncHandler defLen)^[3 * debounceDelay] s).insertionStatus = .fullyInserted ∧
      ((vsyncHandler defLen)^[3 * debounceDelay] s).disk = d ∧
      ((vsyncHandler defLen)^[3 * debounceDelay] s).diskToInsert = none) ∧
    (∀ (defLen : Nat → Nat) (s : DriveState),
      s.insertionStatus = .fullyInserted → s.diskToInsert = none →
      s.diskChangeCounter = 1 →
      ((vsyncHandler defLen)^[2 * debounceDelay] s).insertionStatus = .fullyEjected ∧
      ((vsyncHandler defLen)^[2 * debounceDelay] s).disk.data = (fun _ _ => 0) ∧
      ((vsyncHandler defLen)^[2 * debounceDelay] s).disk.length = defLen) ∧
    (∀ (defLen : Nat → Nat) (s : DriveState), s.diskChangeCounter ≠ 1 →
      (vsyncHandler defLen s).insertionStatus = s.insertionStatus ∧
      (vsyncHandler defLen s).disk = s.disk ∧
      (vsyncHandler defLen s).diskToInsert = s.diskToInsert) := by
  refine ⟨?_, ?_, ?_⟩
  · intro defLen s d hst hd hc
    have e1 : vsyncHandler defLen s =
        { s with insertionStatus := .partiallyInserted,
                 diskChangeCounter := (debounceDelay : Int) } :=
      vsyncHandler_fireEjectedSome defLen s d hc hst hd
    have e2 : (vsyncHandler defLen)^[16]
        { s with insertionStatus := .partiallyInserted,
                 diskChangeCounter := (debounceDelay : Int) } =
        { s with insertionStatus := .partiallyInserted,
                 diskChangeCounter := 1 } := by
      have h15 := vsyncHandler_countdown defLen 15
        { s with insertionStatus := .partiallyInserted,
                 diskChangeCounter := (debounceDelay : Int) }
        (by norm_num [debounceDelay])
      exact h15
    have e3 : vsyncHandler defLen
        { s with insertionStatus := .partiallyInserted,
                 diskChangeCounter := 1 } =
        { s with insertionStatus := .fullyInserted, disk := d,
                 diskToInsert := none, diskChangeCounter := 0 } :=
      vsyncHandler_fireInsertingSome defLen _ d rfl rfl hd
    have e4 : (vsyncHandler defLen)^[33]
        { s with insertionStatus := .fullyInserted, disk := d,
                 diskToInsert := none, diskChangeCounter := 0 } =
        { s with insertionStatus := .fullyInserted, disk := d,
                 diskToInsert := none, diskChangeCounter := 0 - (33 : Nat) } :=
      vsyncHandler_stuck defLen 33 _ (by norm_num)
    have hsplit : (3 : Nat) * debounceDelay = 33 + (1 + (16 + 1)) := by decide
    rw [hsplit, Function.iterate_add_apply, Function.iterate_add_apply,
        Function.iterate_add_apply, Function.iterate_one,
        e1, e2, e3, e4]
    exact ⟨rfl, rfl, rfl⟩
  · intro defLen s hst hd hc
    have e1 : vsyncHandler defLen s =
        { s with insertionStatus := .partiallyEjected,
                 disk := s.disk.clearDisk defLen,
                 diskChangeCounter := (debounceDelay : Int) } :=
      vsyncHandler_fireInserted defLen s hc hst
    have e2 : (vsyncHandler defLen)^[16]
        { s with insertionStatus := .partiallyEjected,
                 disk := s.disk.clearDisk defLen,
                 diskChangeCounter := (debounceDelay : Int) } =
        { s with insertionStatus := .partiallyEjected,
                 disk := s.disk.clearDisk defLen,
                 diskChangeCounter := 1 } :=
      vsyncHandler_countdown defLen 15 _ (by norm_num [debounceDelay])
    have e3 : vsyncHandler defLen
        { s with insertionStatus := .partiallyEjected,
                 disk := s.disk.clearDisk defLen,
                 diskChangeCounter := 1 } =
        { s with insertionStatus := .fullyEjected,
                 disk := s.disk.clearDisk defLen,
                 diskChangeCounter := (debounceDelay : Int) } :=
      vsyncHandler_firePartiallyEjected defLen _ rfl rfl
    have e4 : (vsyncHandler defLen)^[16]
        { s with insertionStatus := .fullyEjected,
                 disk := s.disk.clearDisk defLen,
                 diskChangeCounter := (debounceDelay : Int) } =
        { s with insertionStatus := .fullyEjected,
                 disk := s.disk.clearDisk defLen,
                 diskChangeCounter := 1 } :=
      vsyncHandler_countdown defLen 15 _ (by norm_num [debounceDelay])
    have hsplit : (2 : Nat) * debounceDelay = 16 + (1 + (16 + 1)) := by decide
    rw [hsplit, Function.iterate_add_apply, Function.iterate_add_apply,
        Function.iterate_add_apply, Function.iterate_one,
        e1, e2, e3, e4]
    exact ⟨rfl, rfl, rfl⟩
  · intro defLen s h
    rw [vsyncHandler_noFire defLen s h]
    exact ⟨rfl, rfl, rfl⟩

/-- Witness for C1: a staged `stagedDisk` inserted from `baseState`, an
ejection from `protectedState`, and a no-fire tick on `baseState`. -/
theorem claim_C1_insertion_machine_witness :
    (((vsyncHandler (fun _ => 63424))^[3 * debounceDelay]
        { baseState with diskToInsert := some stagedDisk,
                         diskChangeCounter := 1 }).insertionStatus =
      .fullyInserted ∧
     ((vsyncHandler (fun _ => 63424))^[3 * debounceDelay]
        { baseState with diskToInsert := some stagedDisk,
                         diskChangeCounter := 1 }).disk = stagedDisk) ∧
    ((vsyncHandler (fun _ => 63424))^[2 * debounceDelay]
        protectedState).insertionStatus = .fullyEjected ∧
    (vsyncHandler (fun _ => 63424) baseState).insertionStatus =
      baseState.insertionStatus :=
  ⟨⟨(claim_C1_insertion_machine.1 (fun _ => 63424)
      { baseState with diskToInsert := some stagedDisk, diskChangeCounter := 1 }
      stagedDisk rfl rfl rfl).1,
    (claim_C1_insertion_machine.1 (fun _ => 63424)
      { baseState with diskToInsert := some stagedDisk, diskChangeCounter := 1 }
      stagedDisk rfl rfl rfl).2.1⟩,
   (claim_C1_insertion_machine.2.1 (fun _ => 63424) protectedState
      rfl rfl rfl).1,
   (claim_C1_insertion_machine.2.2 (fun _ => 63424) baseState (by decide)).1⟩

/-- Claim C3: across any sequence of bit-cell steps and byte-ready
recomputations, `via2.CA1action` is invoked exactly once for every change of
the byte-ready value — each single operation notifies exactly when its
byte-ready result differs from the previous value (the unconditional phase-2
raise notifies only from a low line), and over a whole trace the number of
invocations equals the number of byte-ready changes. -/
theorem claim_C3_ca1_notifications :
    (∀ (op : DriveOp) (s : DriveState),
      ((applyOp op s).2).length =
        (if ((applyOp op s).1).byteReady = s.byteReady then 0 else 1)) ∧
    (∀ (ops : List DriveOp) (s : DriveState),
      (runOps ops s).2 = byteReadyFlips ops s) := by
  have hop : ∀ (op : DriveOp) (s : DriveState),
      ((applyOp op s).2).length =
        (if ((applyOp op s).1).byteReady = s.byteReady then 0 else 1) := by
    intro op s
    cases op with
    | bitCell env => exact executeUF4_count env s
    | recompute env => exact updateByteReadyAct_count env s
  refine ⟨hop, ?_⟩
  intro ops
  induction ops with
  | nil => intro s; rfl
  | cons op rest ih =>
      intro s
      simp only [runOps, byteReadyFlips]
      rw [ih, hop]

/-- Claim C8 (amended): after every bit-cell step the sync flag equals "the
low 10 bits of the read shift register are not all 1 OR write mode", with the
register sampled when sync is recomputed — i.e. at its pre-step value (on a
phase-2 step the register shifts afterwards, so the formula over the
post-step register can disagree; see the counterexample); whenever sync is
false after the step the byte-ready counter is 0; and a phase-2 step under
sync advances the byte-ready counter modulo 8. -/
theorem claim_C8_sync_invariant_amended (env : ViaEnv) (s : DriveState) :
    ((executeUF4 env s).1).sync =
      (decide ((s.readShiftreg &&& 0x3FF) ≠ 0x3FF) || writeMode env) ∧
    (((executeUF4 env s).1).sync = false →
      ((executeUF4 env s).1).byteReadyCounter = 0) ∧
    (((executeUF4 env s).1).counterUF4 &&& 0x03 = 2 →
      ((executeUF4 env s).1).sync = true →
      ((executeUF4 env s).1).byteReadyCounter = (s.byteReadyCounter + 1) % 8) :=
  ⟨executeUF4_sync env s, executeUF4_syncLost env s,
   fun h2 hs => executeUF4_phase2Advance env s h2 hs⟩

/-- Counterexample to C8 as stated: in read mode, a phase-2 step from
`phase2State` (read shift register `0x1FF`) shifts a 1 in after sync was
recomputed; afterwards the low 10 bits are all 1 yet the stored sync flag is
still true, so sync does not equal the formula over the current register. -/
theorem claim_C8_sync_invariant_counterexample :
    ¬(((executeUF4 readEnv phase2State).1).sync =
        (decide ((((executeUF4 readEnv phase2State).1).readShiftreg &&& 0x3FF) ≠ 0x3FF) ||
         writeMode readEnv)) ∧
    ((executeUF4 readEnv phase2State).1).sync = true ∧
    ((executeUF4 readEnv phase2State).1).readShiftreg &&& 0x3FF = 0x3FF ∧
    writeMode readEnv = false := by
  exact ⟨by decide, by decide, by decide, by decide⟩

/-- Witness for the amended C8: losing sync at `syncLostState` zeroes the
byte-ready counter, and the phase-2 step from `phase2State` advances it. -/
theorem claim_C8_sync_invariant_amended_witness :
    (((executeUF4 readEnv syncLostState).1).sync = false ∧
     ((executeUF4 readEnv syncLostState).1).byteReadyCounter = 0) ∧
    (((executeUF4 readEnv phase2State).1).counterUF4 &&& 0x03 = 2 ∧
     ((executeUF4 readEnv phase2State).1).sync = true ∧
     ((executeUF4 readEnv phase2State).1).byteReadyCounter =
       (phase2State.byteReadyCounter + 1) % 8) :=
  ⟨⟨by decide,
    (claim_C8_sync_invariant_amended readEnv syncLostState).2.1 (by decide)⟩,
   ⟨by decide, by decide,
    (claim_C8_sync_invariant_amended readEnv phase2State).2.2
      (by decide) (by decide)⟩⟩

/-- The embedded `Drive::moveHeadUp` never touches the disk object. -/
theorem moveHeadUp_disk (s : DriveState) : (moveHeadUp s).disk = s.disk := by
  unfold moveHeadUp
  split <;> rfl

/-- The embedded `Drive::moveHeadDown` never touches the disk object. -/
theorem moveHeadDown_disk (s : DriveState) : (moveHeadDown s).disk = s.disk := by
  unfold moveHeadDown
  split <;> rfl

/-- Claim C7 (amended): the write-protection mark is preserved by bit-cell
stepping (even on surface writes), by head stepping, by `insertDisk` and
`ejectDisk`, and by every non-firing vertical-sync tick; but the debounced
sequence itself does change it: the `FULLY_INSERTED → PARTIALLY_EJECTED`
edge clears the surface with `clearDisk`, which removes the protection mark,
and the `PARTIALLY_INSERTED → FULLY_INSERTED` edge replaces it with the
staged disk's mark (the serialized image includes the flag). -/
theorem claim_C7_write_protect_amended :
    (∀ (env : ViaEnv) (s : DriveState),
      ((executeUF4 env s).1).disk.writeProtected = s.disk.writeProtected) ∧
    (∀ s : DriveState, (moveHeadUp s).disk.writeProtected = s.disk.writeProtected) ∧
    (∀ s : DriveState, (moveHeadDown s).disk.writeProtected = s.disk.writeProtected) ∧
    (∀ (d2 : Disk) (s : DriveState),
      (insertDisk d2 s).disk.writeProtected = s.disk.writeProtected) ∧
    (∀ s : DriveState, (ejectDisk s).disk.writeProtected = s.disk.writeProtected) ∧
    (∀ (defLen : Nat → Nat) (s : DriveState), s.diskChangeCounter ≠ 1 →
      (vsyncHandler defLen s).disk.writeProtected = s.disk.writeProtected) ∧
    (∀ (defLen : Nat → Nat) (s : DriveState), s.diskChangeCounter = 1 →
      s.insertionStatus = .fullyInserted →
      (vsyncHandler defLen s).disk.writeProtected = false) ∧
    (∀ (defLen : Nat → Nat) (s : DriveState) (d : Disk), s.diskChangeCounter = 1 →
      s.insertionStatus = .partiallyInserted → s.diskToInsert = some d →
      (vsyncHandler defLen s).disk.writeProtected = d.writeProtected) := by
  refine ⟨executeUF4_writeProtected, ?_, ?_, ?_, ?_, ?_, ?_, ?_⟩
  · intro s
    rw [moveHeadUp_disk]
  · intro s
    rw [moveHeadDown_disk]
  · intro d2 s
    unfold insertDisk
    cases hp : s.diskToInsert <;> rfl
  · intro s
    unfold ejectDisk
    split <;> rfl
  · intro defLen s h
    rw [vsyncHandler_noFire defLen s h]
  · intro defLen s h hst
    rw [vsyncHandler_fireInserted defLen s h hst]
    rfl
  · intro defLen s d h hst hd
    rw [vsyncHandler_fireInsertingSome defLen s d h hst hd]

/-- Counterexample to C7 as stated: a write-protected, fully inserted disk
loses its protection mark on the very next vertical-sync tick after
`ejectDisk`, because the ejection edge calls `clearDisk` (whose contract
removes the copy-protection mark). -/
theorem claim_C7_write_protect_counterexample :
    protectedState.disk.writeProtected = true ∧
    (vsyncHandler (fun _ => 63424) protectedState).disk.writeProtected = false :=
  ⟨rfl, by decide⟩

/-- Witness for the amended C7 at concrete states. -/
theorem claim_C7_write_protect_amended_witness :
    ((executeUF4 readEnv phase2State).1).disk.writeProtected =
      phase2State.disk.writeProtected ∧
    (baseState.diskChangeCounter ≠ 1 ∧
     (vsyncHandler (fun _ => 63424) baseState).disk.writeProtected =
       baseState.disk.writeProtected) ∧
    (protectedState.diskChangeCounter = 1 ∧
     protectedState.insertionStatus = .fullyInserted ∧
     (vsyncHandler (fun _ => 63424) protectedState).disk.writeProtected = false) :=
  ⟨claim_C7_write_protect_amended.1 readEnv phase2State,
   ⟨by decide, claim_C7_write_protect_amended.2.2.2.2.2.1 (fun _ => 63424)
      baseState (by decide)⟩,
   ⟨rfl, rfl, claim_C7_write_protect_amended.2.2.2.2.2.2.1 (fun _ => 63424)
      protectedState rfl rfl⟩⟩

/-- A present directory slot lies fully inside the buffer. -/
theorem directoryItemIsPresent_lt (t : T64) (item : Nat)
    (h : t.directoryItemIsPresent item = true) : 0x60 + item * 0x20 < t.size := by
  unfold T64.directoryItemIsPresent at h
  rw [Bool.and_eq_true] at h
  exact of_decide_eq_true h.1

/-- With fuel at least `size`, the scan stops at a non-present slot. -/
theorem scanFrom_not_present (t : T64) :
    ∀ fuel item, t.size ≤ fuel + item →
      t.directoryItemIsPresent (t.scanFrom fuel item) = false := by
  intro fuel
  induction fuel with
  | zero =>
      intro item h
      unfold T64.scanFrom
      cases hp : t.directoryItemIsPresent item with
      | false => rfl
      | true =>
          have := directoryItemIsPresent_lt t item hp
          omega
  | succ m ih =>
      intro item h
      unfold T64.scanFrom
      split_ifs with hp
      · exact ih (item + 1) (by omega)
      · simpa using hp

/-- Every slot strictly before the scan result is present. -/
theorem scanFrom_all_present (t : T64) :
    ∀ fuel item j, item ≤ j → j < t.scanFrom fuel item →
      t.directoryItemIsPresent j = true := by
  intro fuel
  induction fuel with
  | zero =>
      intro item j h1 h2
      unfold T64.scanFrom at h2
      omega
  | succ m ih =>
      intro item j h1 h2
      unfold T64.scanFrom at h2
      split_ifs at h2 with hp
      · rcases Nat.eq_or_lt_of_le h1 with he | hl
        · rwa [he] at hp
        · exact ih (item + 1) j hl h2
      · omega

/-- The field `memStart` depends only on its two bytes. -/
theorem memStart_eq_of_data (t1 t2 : T64) (p : Nat)
    (h1 : t1.data (0x42 + p * 0x20) = t2.data (0x42 + p * 0x20))
    (h2 : t1.data (0x43 + p * 0x20) = t2.data (0x43 + p * 0x20)) :
    t1.memStart p = t2.memStart p := by
  unfold T64.memStart
  rw [h1, h2]

/-- The field `memEnd` depends only on its two bytes. -/
theorem memEnd_eq_of_data (t1 t2 : T64) (p : Nat)
    (h1 : t1.data (0x44 + p * 0x20) = t2.data (0x44 + p * 0x20))
    (h2 : t1.data (0x45 + p * 0x20) = t2.data (0x45 + p * 0x20)) :
    t1.memEnd p = t2.memEnd p := by
  unfold T64.memEnd
  rw [h1, h2]

/-- The field `containerStart` depends only on its four bytes. -/
theorem containerStart_eq_of_data (t1 t2 : T64) (p : Nat)
    (h1 : t1.data (0x48 + p * 0x20) = t2.data (0x48 + p * 0x20))
    (h2 : t1.data (0x49 + p * 0x20) = t2.data (0x49 + p * 0x20))
    (h3 : t1.data (0x4A + p * 0x20) = t2.data (0x4A + p * 0x20))
    (h4 : t1.data (0x4B + p * 0x20) = t2.data (0x4B + p * 0x20)) :
    t1.containerStart p = t2.containerStart p := by
  unfold T64.containerStart
  rw [h1, h2, h3, h4]

/-- Recombining the two stored bytes of a 16-bit value. -/
theorem two_byte_roundtrip (x : Nat) (h : x < 65536) :
    x % 256 + 256 * (x / 256 % 256) = x := by
  omega

/-- The per-item repair loop: when every container offset is in range it
succeeds, patches exactly the sentinel end addresses (from the pre-loop item
fields, which later iterations never overwrite), and touches no byte outside
the patched end-address fields. -/
theorem repairItems_spec :
    ∀ (k : Nat) (t : T64) (i : Nat),
      (∀ p, i ≤ p → p < i + k → t.containerStart p < t.size) →
      ∃ t' : T64, t.repairItems i k = some t' ∧
        t'.size = t.size ∧
        (∀ j : Nat, (∀ p, i ≤ p → p < i + k →
            j ≠ 0x44 + p * 0x20 ∧ j ≠ 0x45 + p * 0x20) → t'.data j = t.data j) ∧
        (∀ p, i ≤ p → p < i + k →
          (t.memEnd p = 0xC3C6 →
            t'.memEnd p = (t.memStart p + (t.size - t.containerStart p)) % 65536) ∧
          (t.memEnd p ≠ 0xC3C6 → t'.memEnd p = t.memEnd p)) := by
  intro k
  induction k with
  | zero =>
      intro t i hoff
      exact ⟨t, rfl, rfl, fun j _ => rfl,
             fun p hp1 hp2 => absurd hp2 (by omega)⟩
  | succ m ih =>
      intro t i hoff
      have hlt : t.containerStart i < t.size := hoff i (le_refl i) (by omega)
      by_cases hsent : t.memEnd i = 0xC3C6
      · set fe := (t.memStart i + (t.size - t.containerStart i)) % 65536 with hfe
        set t1 : T64 := { t with data := (fun j =>
            if j = 0x44 + i * 0x20 then fe % 256
            else if j = 0x45 + i * 0x20 then fe / 256 % 256
            else t.data j) } with ht1
        have hpatch : t.patchItem i = some t1 := by
          unfold T64.patchItem
          rw [if_neg (by omega), if_pos hsent]
        have hstep : t.repairItems i (m + 1) = t1.repairItems (i + 1) m := by
          rw [T64.repairItems, hpatch]
        have h1size : t1.size = t.size := rfl
        have h1frame : ∀ j, j ≠ 0x44 + i * 0x20 → j ≠ 0x45 + i * 0x20 →
            t1.data j = t.data j := by
          intro j hj1 hj2
          rw [ht1]
          dsimp only
          rw [if_neg hj1, if_neg hj2]
        have h1cs : ∀ p, t1.containerStart p = t.containerStart p := by
          intro p
          exact containerStart_eq_of_data t1 t p
            (h1frame _ (by omega) (by omega)) (h1frame _ (by omega) (by omega))
            (h1frame _ (by omega) (by omega)) (h1frame _ (by omega) (by omega))
        have h1ms : ∀ p, t1.memStart p = t.memStart p := by
          intro p
          exact memStart_eq_of_data t1 t p
            (h1frame _ (by omega) (by omega)) (h1frame _ (by omega) (by omega))
        have h1me : ∀ p, p ≠ i → t1.memEnd p = t.memEnd p := by
          intro p hp
          exact memEnd_eq_of_data t1 t p
            (h1frame _ (by omega) (by omega)) (h1frame _ (by omega) (by omega))
        have hfelt : fe < 65536 := by
          rw [hfe]
          exact Nat.mod_lt _ (by norm_num)
        have h1mei : t1.memEnd i = fe := by
          unfold T64.memEnd
          rw [ht1]
          dsimp only
          split_ifs <;> omega
        obtain ⟨t', hrep, hsize, hframe, hends⟩ := ih t1 (i + 1) (by
          intro p hp1 hp2
          rw [h1cs, h1size]
          exact hoff p (by omega) (by omega))
        refine ⟨t', by rw [hstep]; exact hrep, by rw [hsize, h1size], ?_, ?_⟩
        · intro j hj
          have hsub : ∀ p, i + 1 ≤ p → p < i + 1 + m →
              j ≠ 0x44 + p * 0x20 ∧ j ≠ 0x45 + p * 0x20 := by
            intro p hp1 hp2
            exact hj p (by omega) (by omega)
          have hji := hj i (le_refl i) (by omega)
          rw [hframe j hsub, h1frame j hji.1 hji.2]
        · intro p hp1 hp2
          rcases Nat.eq_or_lt_of_le hp1 with he | hl
          · subst he
            have hdata1 : t'.data (0x44 + i * 0x20) = t1.data (0x44 + i * 0x20) := by
              apply hframe
              intro q hq1 hq2
              exact ⟨by omega, by omega⟩
            have hdata2 : t'.data (0x45 + i * 0x20) = t1.data (0x45 + i * 0x20) := by
              apply hframe
              intro q hq1 hq2
              exact ⟨by omega, by omega⟩
            have hEnd := memEnd_eq_of_data t' t1 i hdata1 hdata2
            constructor
            · intro _
              rw [hEnd, h1mei, hfe]
            · intro hne
              exact absurd hsent hne
          · have hrec := hends p (by omega) (by omega)
            rw [h1me p (by omega), h1ms p, h1cs p, h1size] at hrec
            exact hrec
      · have hpatch : t.patchItem i = some t := by
          unfold T64.patchItem
          rw [if_neg (by omega), if_neg hsent]
        have hstep : t.repairItems i (m + 1) = t.repairItems (i + 1) m := by
          rw [T64.repairItems, hpatch]
        obtain ⟨t', hrep, hsize, hframe, hends⟩ := ih t (i + 1) (by
          intro p hp1 hp2
          exact hoff p (by omega) (by omega))
        refine ⟨t', by rw [hstep]; exact hrep, hsize, ?_, ?_⟩
        · intro j hj
          apply hframe
          intro p hp1 hp2
          exact hj p (by omega) (by omega)
        · intro p hp1 hp2
          rcases Nat.eq_or_lt_of_le hp1 with he | hl
          · subst he
            have hdata1 : t'.data (0x44 + i * 0x20) = t.data (0x44 + i * 0x20) := by
              apply hframe
              intro q hq1 hq2
              exact ⟨by omega, by omega⟩
            have hdata2 : t'.data (0x45 + i * 0x20) = t.data (0x45 + i * 0x20) := by
              apply hframe
              intro q hq1 hq2
              exact ⟨by omega, by omega⟩
            have hEnd := memEnd_eq_of_data t' t i hdata1 hdata2
            exact ⟨fun hs => absurd hs hsent, fun _ => hEnd⟩
          · exact hends p (by omega) (by omega)

/-- The helper `writeCount` touches only the two count-field bytes. -/
theorem writeCount_frame (t : T64) (n j : Nat) (h1 : j ≠ 0x24) (h2 : j ≠ 0x25) :
    (t.writeCount n).data j = t.data j := by
  unfold T64.writeCount
  dsimp only
  rw [if_neg h1, if_neg h2]

/-- The helper `writeCount` stores a 16-bit value into the count field. -/
theorem writeCount_collectionCount (t : T64) (n : Nat) (h : n < 65536) :
    (t.writeCount n).collectionCount = n := by
  unfold T64.writeCount T64.collectionCount
  dsimp only
  split_ifs <;> omega

/-- Claim C9: parsing a T64 archive whose header item-count field is zero,
the repair pass counts the consecutive non-empty directory slots (the scan
stops at the first empty slot) and rewrites the count field to that number;
every item whose end-address field holds the CONVC64 sentinel `0xC3C6` has
its end address patched to start address + (container size − the item's
start offset within the container), other end addresses are left unchanged;
and — provided each scanned item's container offset lies inside the buffer —
the repair, and with it the overall parse, succeeds. -/
theorem claim_C9_t64_repair (t : T64) (hcount : t.collectionCount = 0)
    (hfit : t.scanItems < 65536)
    (hoffsets : ∀ p, p < t.scanItems → t.containerStart p < t.size) :
    ∃ t' : T64, t.repair = some t' ∧
      t'.size = t.size ∧
      t'.collectionCount = t.scanItems ∧
      t.directoryItemIsPresent t.scanItems = false ∧
      (∀ p, p < t.scanItems → t.directoryItemIsPresent p = true) ∧
      (∀ p, p < t.scanItems →
        (t.memEnd p = 0xC3C6 →
          t'.memEnd p = (t.memStart p + (t.size - t.containerStart p)) % 65536) ∧
        (t.memEnd p ≠ 0xC3C6 → t'.memEnd p = t.memEnd p)) := by
  have hnp : t.directoryItemIsPresent t.scanItems = false :=
    scanFrom_not_present t t.size 0 (by omega)
  have hap : ∀ p, p < t.scanItems → t.directoryItemIsPresent p = true := by
    intro p hp
    exact scanFrom_all_present t t.size 0 p (Nat.zero_le p) hp
  by_cases hz : t.scanItems = 0
  · have hrepair : t.repair = some t := by
      unfold T64.repair
      dsimp only
      rw [hcount]
      simp [hz]
      rfl
    exact ⟨t, hrepair, rfl, by rw [hcount, hz], hnp, hap,
           fun p hp => absurd hp (by omega)⟩
  · set t1 := t.writeCount t.scanItems with ht1
    have hrepair : t.repair = t1.repairItems 0 t.scanItems := by
      unfold T64.repair
      dsimp only
      rw [hcount]
      simp [hz, T64.repair, ht1]
    have h1frame : ∀ j, j ≠ 0x24 → j ≠ 0x25 → t1.data j = t.data j := by
      intro j a b
      exact writeCount_frame t _ j a b
    have h1size : t1.size = t.size := rfl
    have h1cs : ∀ p, t1.containerStart p = t.containerStart p := by
      intro p
      exact containerStart_eq_of_data t1 t p
        (h1frame _ (by omega) (by omega)) (h1frame _ (by omega) (by omega))
        (h1frame _ (by omega) (by omega)) (h1frame _ (by omega) (by omega))
    have h1ms : ∀ p, t1.memStart p = t.memStart p := by
      intro p
      exact memStart_eq_of_data t1 t p
        (h1frame _ (by omega) (by omega)) (h1frame _ (by omega) (by omega))
    have h1me : ∀ p, t1.memEnd p = t.memEnd p := by
      intro p
      exact memEnd_eq_of_data t1 t p
        (h1frame _ (by omega) (by omega)) (h1frame _ (by omega) (by omega))
    obtain ⟨t', hrep, hsize, hframe, hends⟩ :=
      repairItems_spec t.scanItems t1 0 (by
        intro p hp1 hp2
        rw [h1cs, h1size]
        exact hoffsets p (by omega))
    refine ⟨t', by rw [hrepair]; exact hrep, by rw [hsize, h1size], ?_,
            hnp, hap, ?_⟩
    · have hc1 : t'.data 0x24 = t1.data 0x24 := by
        apply hframe
        intro p hp1 hp2
        exact ⟨by omega, by omega⟩
      have hc2 : t'.data 0x25 = t1.data 0x25 := by
        apply hframe
        intro p hp1 hp2
        exact ⟨by omega, by omega⟩
      have hcc : t'.collectionCount = t1.collectionCount := by
        unfold T64.collectionCount
        rw [hc1, hc2]
      rw [hcc]
      exact writeCount_collectionCount t _ hfit
    · intro p hp
      have hrec := hends p (Nat.zero_le p) (by omega)
      rw [h1me p, h1ms p, h1cs p, h1size] at hrec
      exact hrec

/-- Witness for C9: the concrete `brokenArchive` (zero count field, one
present slot whose end address is the sentinel) is repaired: the count
becomes 1 and item 0's end address becomes
`0x0801 + (0x70 − 0x60) = 0x0811`. -/
theorem claim_C9_t64_repair_witness :
    (brokenArchive.collectionCount = 0 ∧
     brokenArchive.scanItems < 65536 ∧
     (∀ p, p < brokenArchive.scanItems →
        brokenArchive.containerStart p < brokenArchive.size)) ∧
    (∃ t' : T64, brokenArchive.repair = some t' ∧
      t'.size = brokenArchive.size ∧
      t'.collectionCount = brokenArchive.scanItems ∧
      brokenArchive.directoryItemIsPresent brokenArchive.scanItems = false ∧
      (∀ p, p < brokenArchive.scanItems →
        brokenArchive.directoryItemIsPresent p = true) ∧
      (∀ p, p < brokenArchive.scanItems →
        (brokenArchive.memEnd p = 0xC3C6 →
          t'.memEnd p = (brokenArchive.memStart p +
            (brokenArchive.size - brokenArchive.containerStart p)) % 65536) ∧
        (brokenArchive.memEnd p ≠ 0xC3C6 →
          t'.memEnd p = brokenArchive.memEnd p))) :=
  ⟨⟨by decide, by decide, by decide⟩,
   claim_C9_t64_repair brokenArchive (by decide) (by decide) (by decide)⟩

end VC64
